import Mathlib

/-!
Shallow embedding of the macro-derivation core of the
type-1-diabetes-carb-calculator repository.

JavaScript numbers are modelled as exact rationals (ℚ); `Math.round`
is modelled as floor (x + 1/2), matching its round-half-toward-+∞
behaviour on the reals.  A JavaScript value that is NaN or ±Infinity is
modelled as `none` wherever the source immediately guards with
`isNaN`/`isFinite` checks.  Strings are Lean strings; `String.prototype.trim`
and the regexes of `parseQuantity.ts` are modelled character by character.
-/

namespace CarbCalc

attribute [local semireducible] Rat.mul Rat.add Rat.inv Rat.sub Rat.ofScientific

/-- Model of `Math.round` (round half toward positive infinity). -/
def jsRound (x : ℚ) : ℤ := ⌊x + 1 / 2⌋

/-- Model of `Math.round(x * 100) / 100`, the 2-decimal rounding that the
Dashboard applies at every scaling step. -/
def round2 (x : ℚ) : ℚ := (jsRound (x * 100) : ℚ) / 100

/-- Model of `String.prototype.trim` (drop leading/trailing whitespace). -/
def jsTrim (s : String) : String :=
  String.mk (((s.toList.dropWhile Char.isWhitespace).reverse.dropWhile
    Char.isWhitespace).reverse)

/-- Numeric value of a string of decimal digits, most significant first. -/
def digitsToNat (l : List Char) : ℕ :=
  l.foldl (fun a c => a * 10 + (c.toNat - 48)) 0

/-- Exponent part of the ECMAScript decimal grammar (`e`/`E`, optional sign,
one or more digits); `some 0` on an empty remainder, `none` when the
remainder is not a valid exponent. -/
def decExponent : List Char → Option ℤ
  | [] => some 0
  | c :: rest =>
    if c = 'e' ∨ c = 'E' then
      match rest with
      | '+' :: ds =>
        if ds ≠ [] ∧ ds.all Char.isDigit then some ((digitsToNat ds : ℤ)) else none
      | '-' :: ds =>
        if ds ≠ [] ∧ ds.all Char.isDigit then some (-(digitsToNat ds : ℤ)) else none
      | ds =>
        if ds ≠ [] ∧ ds.all Char.isDigit then some ((digitsToNat ds : ℤ)) else none
    else none

/-- `StrUnsignedDecimalLiteral` of the ECMAScript string-to-number grammar:
`Infinity` (non-finite, modelled as `none`), or digits with optional
fraction part and optional exponent. -/
def strUnsignedDecimal (l : List Char) : Option ℚ :=
  if l = "Infinity".toList then none
  else
    let intPart := l.takeWhile Char.isDigit
    let r1 := l.dropWhile Char.isDigit
    match r1 with
    | '.' :: r2 =>
      let fracPart := r2.takeWhile Char.isDigit
      let r3 := r2.dropWhile Char.isDigit
      if intPart = [] ∧ fracPart = [] then none
      else
        (decExponent r3).map (fun e =>
          ((digitsToNat intPart : ℚ) +
            (digitsToNat fracPart : ℚ) / (10 : ℚ) ^ fracPart.length) * (10 : ℚ) ^ e)
    | _ =>
      if intPart = [] then none
      else (decExponent r1).map (fun e => (digitsToNat intPart : ℚ) * (10 : ℚ) ^ e)

/-- Value of one digit in the given radix (hex letters allowed), `none` when
the character is not a digit of that radix. -/
def radixVal (b : ℕ) (c : Char) : Option ℕ :=
  let v :=
    if c.isDigit then some (c.toNat - 48)
    else if 'a' ≤ c ∧ c ≤ 'f' then some (c.toNat - 87)
    else if 'A' ≤ c ∧ c ≤ 'F' then some (c.toNat - 55)
    else none
  match v with
  | some n => if n < b then some n else none
  | none => none

/-- Non-decimal integer literal body (after `0x`/`0o`/`0b`). -/
def radixNat (b : ℕ) (ds : List Char) : Option ℚ :=
  if ds = [] then none
  else
    (ds.foldl
      (fun acc c =>
        match acc, radixVal b c with
        | some a, some v => some (a * b + v)
        | _, _ => none)
      (some 0)).map (fun n => (n : ℚ))

/-- Model of the ECMAScript `Number(string)` conversion applied to an
already-trimmed string, as used by `parseQuantity.ts` and the Dashboard
form handlers.  `none` stands for a NaN or non-finite result (the callers
reject both via `isNaN`/`isFinite`). -/
def strToNumber (s : String) : Option ℚ :=
  match s.toList with
  | [] => some 0
  | '0' :: 'x' :: ds => radixNat 16 ds
  | '0' :: 'X' :: ds => radixNat 16 ds
  | '0' :: 'o' :: ds => radixNat 8 ds
  | '0' :: 'O' :: ds => radixNat 8 ds
  | '0' :: 'b' :: ds => radixNat 2 ds
  | '0' :: 'B' :: ds => radixNat 2 ds
  | '+' :: l => strUnsignedDecimal l
  | '-' :: l => (strUnsignedDecimal l).map (fun q => -q)
  | l => strUnsignedDecimal l

/-- Model of the regex `^(\d+)\/(\d+)$` capture from `parseQuantity.ts`. -/
def fractionOf (l : List Char) : Option (ℕ × ℕ) :=
  match l.splitOn '/' with
  | [a, b] =>
    if a ≠ [] ∧ b ≠ [] ∧ a.all Char.isDigit ∧ b.all Char.isDigit then
      some (digitsToNat a, digitsToNat b)
    else none
  | _ => none

/-- Model of the regex `^(\d+)\s+(\d+)\/(\d+)$` capture from
`parseQuantity.ts`. -/
def mixedOf (l : List Char) : Option (ℕ × ℕ × ℕ) :=
  let whole := l.takeWhile Char.isDigit
  let r1 := l.dropWhile Char.isDigit
  let sp := r1.takeWhile Char.isWhitespace
  let r2 := r1.dropWhile Char.isWhitespace
  if whole = [] ∨ sp = [] then none
  else (fractionOf r2).map (fun nd => (digitsToNat whole, nd))

/-- `parseQuantity` from `src/app/src/utils/parseQuantity.ts`: decimal
number first (via the host conversion), then simple fraction, then mixed
number; every failure (empty input, zero denominator, unparseable text)
is the same `null`, modelled as `none`. -/
def parseQuantity (input : String) : Option ℚ :=
  let trimmed := jsTrim input
  if trimmed = "" then none
  else
    match strToNumber trimmed with
    | some d => some d
    | none =>
      match fractionOf trimmed.toList with
      | some (n, d) => if d = 0 then none else some ((n : ℚ) / (d : ℚ))
      | none =>
        match mixedOf trimmed.toList with
        | some (w, n, d) =>
          if d = 0 then none else some ((w : ℚ) + (n : ℚ) / (d : ℚ))
        | none => none

/-! ## Data model (src/app/src/data/types.ts, src/app/src/types/foodCatalog.ts) -/

/-- The `MealSource` union of `data/types.ts`. -/
inductive MealSource
  | homeMeal
  | packagedMeal
  | fastFood
  | restaurant
  | recipe
  | custom
deriving DecidableEq

/-- `EatingOutSourceType` from `types/foodCatalog.ts`. -/
inductive EatingOutSourceType
  | fastFoodType
  | restaurantType
deriving DecidableEq

/-- `mapMealSourceToCatalogType` from `Dashboard.tsx`. -/
def mapMealSourceToCatalogType : MealSource → Option EatingOutSourceType
  | .fastFood => some .fastFoodType
  | .restaurant => some .restaurantType
  | _ => none

/-- The recurring check `source === 'Fast Food' || source === 'Restaurant'`. -/
def isFastFoodOrRestaurant : MealSource → Bool
  | .fastFood => true
  | .restaurant => true
  | _ => false

/-- `isPhysicalBasisUnit` from `Dashboard.tsx`: `false` on a missing or
empty unit (JavaScript falsiness), otherwise membership in the fixed
physical-unit lookup table. -/
def isPhysicalBasisUnit (unit : Option String) : Bool :=
  match unit with
  | none => false
  | some u =>
    if u = "" then false
    else ["g", "ml", "mL", "oz", "fl oz", "cup", "tbsp", "tsp"].contains u

/-- `MacroTotals` from `data/types.ts`: the seven macro fields. -/
@[ext]
structure MacroTotals where
  calories : ℚ
  fatG : ℚ
  sodiumMg : ℚ
  carbsG : ℚ
  fiberG : ℚ
  sugarG : ℚ
  proteinG : ℚ
deriving DecidableEq

/-- `MealLineItem` from `data/types.ts`, restricted to the fields the
derivation engine and the catalog upsert read (`servingSize`, `notes`,
`order`, ids and timestamps are omitted).  `chain`/`foodItem` are the
optional eating-out fields the Dashboard writes alongside the interface. -/
structure MealLineItem where
  name : String
  source : MealSource
  chain : Option String
  foodItem : Option String
  quantity : ℚ
  macros : MacroTotals
  perQuantityRaw : Option String
  perType : Option String
deriving DecidableEq

/-! ## Macro derivation engine (Dashboard.tsx) -/

/-- The field-wise `Math.round(base.f * multiplier * 100) / 100` block that
`handleAddFood` stores as `calculatedMacros` (and that `handleEditSave`
re-applies with its ratio). -/
def calculatedMacros (base : MacroTotals) (multiplier : ℚ) : MacroTotals where
  calories := round2 (base.calories * multiplier)
  fatG := round2 (base.fatG * multiplier)
  sodiumMg := round2 (base.sodiumMg * multiplier)
  carbsG := round2 (base.carbsG * multiplier)
  fiberG := round2 (base.fiberG * multiplier)
  sugarG := round2 (base.sugarG * multiplier)
  proteinG := round2 (base.proteinG * multiplier)

/-- The multiplier of `handleAddFood`:
`isPhysical ? amountHaving : amountHaving / perQuantity`, where
`isPhysical = isFastFoodOrRestaurant && isPhysicalBasisUnit(perQuantityUnit)`. -/
def jsMultiplier (source : MealSource) (perQuantityUnit : Option String)
    (amountHaving perQuantity : ℚ) : ℚ :=
  if isFastFoodOrRestaurant source && isPhysicalBasisUnit perQuantityUnit then
    amountHaving
  else amountHaving / perQuantity

/-- Forward scaling, the computation of `handleAddFood` lines 569-581. -/
def deriveScaled (source : MealSource) (perQuantityUnit : Option String)
    (base : MacroTotals) (amountHaving perQuantity : ℚ) : MacroTotals :=
  calculatedMacros base (jsMultiplier source perQuantityUnit amountHaving perQuantity)

/-- Field-wise `Math.round((m.f / divisor) * 100) / 100` as written in both
branches of `deriveBaseMacros`. -/
def dividedMacros (m : MacroTotals) (divisor : ℚ) : MacroTotals where
  calories := round2 (m.calories / divisor)
  fatG := round2 (m.fatG / divisor)
  sodiumMg := round2 (m.sodiumMg / divisor)
  carbsG := round2 (m.carbsG / divisor)
  fiberG := round2 (m.fiberG / divisor)
  sugarG := round2 (m.sugarG / divisor)
  proteinG := round2 (m.proteinG / divisor)

/-- `deriveBaseMacros` from `Dashboard.tsx` (inverse derivation used when
caching a logged line item back into the catalog). -/
def deriveBaseMacros (lineItem : MealLineItem) : MacroTotals :=
  let isFFR := isFastFoodOrRestaurant lineItem.source
  let isPhysical := isPhysicalBasisUnit lineItem.perType
  if isFFR && isPhysical then
    let divisor := if 0 < lineItem.quantity then lineItem.quantity else 1
    dividedMacros lineItem.macros divisor
  else
    let perQuantity := (parseQuantity (lineItem.perQuantityRaw.getD "1")).getD 1
    let multiplier := if 0 < perQuantity then lineItem.quantity / perQuantity else 1
    let divisor := if 0 < multiplier then multiplier else 1
    dividedMacros lineItem.macros divisor

/-- The add-food form state as `handleAddFood` reads it.  String-valued
numeric inputs (`amountHaving`, `servingSizeAmount`) are modelled after
their `Number(...)` conversion with `none` for a NaN/non-finite result; the
seven macro inputs appear after their `Number(x) || 0` defaulting. -/
structure FoodFormData where
  name : String
  chain : String
  foodItem : String
  servingSizeAmount : Option ℚ
  perQuantityRaw : String
  perUnit : String
  perQuantityUnit : Option String
  baseMacros : MacroTotals
  amountHaving : Option ℚ
deriving DecidableEq

/-- The inline validation failures `handleAddFood` surfaces via
`setFormError`. -/
inductive AddFoodError
  | missingChain
  | missingFoodItem
  | missingPerQuantityUnit
  | missingName
  | invalidServingSize
  | invalidPerQuantity
  | invalidAmountHaving
deriving DecidableEq

/-- The source-specific required-field checks at the top of
`handleAddFood`: chain, food item and per-quantity unit for eating-out
sources; name and serving size for the rest. -/
def sourceChecks (source : MealSource) (form : FoodFormData) :
    Option AddFoodError :=
  if isFastFoodOrRestaurant source then
    if jsTrim form.chain = "" then some .missingChain
    else if jsTrim form.foodItem = "" then some .missingFoodItem
    else if jsTrim (form.perQuantityUnit.getD "") = "" then
      some .missingPerQuantityUnit
    else none
  else
    if jsTrim form.name = "" then some .missingName
    else
      match form.servingSizeAmount with
      | none => some .invalidServingSize
      | some ssa => if ssa ≤ 0 then some .invalidServingSize else none

/-- Validation and line-item construction of `handleAddFood`
(`Dashboard.tsx`): the source-specific required-field checks, then the
per-quantity and amount-having checks, then the scaled line item.  The
persistence calls and UI state updates around it are modelled separately. -/
def handleAddFood (source : MealSource) (form : FoodFormData) :
    Except AddFoodError MealLineItem :=
  match sourceChecks source form with
  | some e => .error e
  | none =>
    match parseQuantity form.perQuantityRaw with
    | none => .error .invalidPerQuantity
    | some perQuantity =>
      if perQuantity ≤ 0 then .error .invalidPerQuantity
      else
        match form.amountHaving with
        | none => .error .invalidAmountHaving
        | some amountHaving =>
          if amountHaving ≤ 0 then .error .invalidAmountHaving
          else
            .ok {
              name := if isFastFoodOrRestaurant source then
                  form.chain ++ " - " ++ form.foodItem
                else form.name
              source := source
              chain := if jsTrim form.chain = "" then none else some (jsTrim form.chain)
              foodItem := if jsTrim form.foodItem = "" then none
                else some (jsTrim form.foodItem)
              quantity := amountHaving
              macros := deriveScaled source form.perQuantityUnit form.baseMacros
                amountHaving perQuantity
              perQuantityRaw := some form.perQuantityRaw
              perType := some (if isFastFoodOrRestaurant source then
                  form.perQuantityUnit.getD "order"
                else form.perUnit) }

/-- `handleEditSave` (`Dashboard.tsx`): rejects a NaN (`none`) or
non-positive new quantity, otherwise rescales the cached macros by
`newQuantity / item.quantity` and stores the new quantity and macros. -/
def handleEditSave (item : MealLineItem) (newQuantity : Option ℚ) :
    Option MealLineItem :=
  match newQuantity with
  | none => none
  | some q =>
    if q ≤ 0 then none
    else some { item with
      quantity := q
      macros := calculatedMacros item.macros (q / item.quantity) }

/-- The accumulation step of the Dashboard `totals` reduce. -/
def addMacros (acc m : MacroTotals) : MacroTotals where
  calories := acc.calories + m.calories
  fatG := acc.fatG + m.fatG
  sodiumMg := acc.sodiumMg + m.sodiumMg
  carbsG := acc.carbsG + m.carbsG
  fiberG := acc.fiberG + m.fiberG
  sugarG := acc.sugarG + m.sugarG
  proteinG := acc.proteinG + m.proteinG

/-- The all-zero seed of the `totals` reduce. -/
def zeroMacros : MacroTotals :=
  { calories := 0, fatG := 0, sodiumMg := 0, carbsG := 0, fiberG := 0,
    sugarG := 0, proteinG := 0 }

/-- The Dashboard `totals` reduce over the working line items: sums each
item's cached `macros` field; nothing is re-derived on read. -/
def totals (lineItems : List MealLineItem) : MacroTotals :=
  lineItems.foldl (fun acc item => addMacros acc item.macros) zeroMacros

/-! ## Food catalog repository (src/app/src/data/foodCatalogRepo.ts) -/

/-- One pass of `replace(/\s+/g, ' ')` over an already-lower-cased list:
every whitespace run becomes a single space.  The flag records whether the
previous character was part of a whitespace run. -/
def collapseWs : List Char → Bool → List Char
  | [], _ => []
  | c :: rest, inRun =>
    if c.isWhitespace then
      if inRun then collapseWs rest true
      else ' ' :: collapseWs rest true
    else c :: collapseWs rest false

/-- `normalizeKey` from `foodCatalogRepo.ts`: trim, lower-case, collapse
whitespace runs to single spaces. -/
def normalizeKey (value : String) : String :=
  String.mk (collapseWs ((jsTrim value).toList.map Char.toLower) false)

/-- The string tag of an `EatingOutSourceType`. -/
def sourceTypeTag : EatingOutSourceType → String
  | .fastFoodType => "FAST_FOOD"
  | .restaurantType => "RESTAURANT"

/-- `buildKey` from `foodCatalogRepo.ts`. -/
def buildKey (sourceType : EatingOutSourceType) (chain itemName : String) :
    String :=
  sourceTypeTag sourceType ++ "|" ++ normalizeKey chain ++ "|" ++
    normalizeKey itemName

/-- A stored `FoodCatalogRecord` (`data/db.ts`): the public
`FoodCatalogItem` fields plus the `key` and normalized lookup columns. -/
structure FoodCatalogRecord where
  id : String
  sourceType : EatingOutSourceType
  chain : String
  itemName : String
  basisQty : ℚ
  basisUnit : String
  calories : ℚ
  fatG : ℚ
  sodiumMg : ℚ
  carbsG : ℚ
  fiberG : ℚ
  sugarG : ℚ
  proteinG : ℚ
  createdAt : ℤ
  updatedAt : ℤ
  key : String
  chainNormalized : String
  itemNormalized : String
deriving DecidableEq

/-- The argument of `upsertFoodCatalogItem`: a `FoodCatalogItem` without
timestamps, with an optional `id`. -/
structure CatalogItemInput where
  id : Option String
  sourceType : EatingOutSourceType
  chain : String
  itemName : String
  basisQty : ℚ
  basisUnit : String
  calories : ℚ
  fatG : ℚ
  sodiumMg : ℚ
  carbsG : ℚ
  fiberG : ℚ
  sugarG : ℚ
  proteinG : ℚ
deriving DecidableEq

/-- `store.index('key').get(key)`: the stored record with the given key. -/
def findRecordByKey (cat : List FoodCatalogRecord) (key : String) :
    Option FoodCatalogRecord :=
  cat.find? (fun r => r.key == key)

/-- `store.get(id)`: the stored record with the given id. -/
def findRecordById (cat : List FoodCatalogRecord) (id : String) :
    Option FoodCatalogRecord :=
  cat.find? (fun r => r.id == id)

/-- IndexedDB `store.put` on the `id` key path: replaces the record with
the same id, otherwise appends. -/
def putById (cat : List FoodCatalogRecord) (record : FoodCatalogRecord) :
    List FoodCatalogRecord :=
  if cat.any (fun r => r.id == record.id) then
    cat.map (fun r => if r.id == record.id then record else r)
  else cat ++ [record]

/-- `upsertFoodCatalogItem` from `foodCatalogRepo.ts` as a pure state
transformer on the stored records; `now` models `Date.now()` and `freshId`
the generated `newId('catalog')`.  The record spread
`{...target, ...item, id, createdAt, updatedAt, key, ...}` resolves to the
input's public fields with the target's id and creation time kept. -/
def upsertFoodCatalogItem (cat : List FoodCatalogRecord)
    (item : CatalogItemInput) (now : ℤ) (freshId : String) :
    List FoodCatalogRecord :=
  let chainNormalized := normalizeKey item.chain
  let itemNormalized := normalizeKey item.itemName
  let key := buildKey item.sourceType item.chain item.itemName
  let existingByKey := findRecordByKey cat key
  let existingById := item.id.bind (fun i => findRecordById cat i)
  let target := existingById.orElse (fun _ => existingByKey)
  let id := (target.map (fun t => t.id)).getD (item.id.getD freshId)
  let createdAt := (target.map (fun t => t.createdAt)).getD now
  putById cat {
    id := id
    sourceType := item.sourceType
    chain := item.chain
    itemName := item.itemName
    basisQty := item.basisQty
    basisUnit := item.basisUnit
    calories := item.calories
    fatG := item.fatG
    sodiumMg := item.sodiumMg
    carbsG := item.carbsG
    fiberG := item.fiberG
    sugarG := item.sugarG
    proteinG := item.proteinG
    createdAt := createdAt
    updatedAt := now
    key := key
    chainNormalized := chainNormalized
    itemNormalized := itemNormalized }

/-- The chain/food-item resolution at the top of the
`upsertEatingOutCatalogFromSession` loop: the explicit fields first, else
the `"Chain - Item"` split of the display name. -/
def resolvedChainItem (item : MealLineItem) : String × String :=
  let chain := jsTrim (item.chain.getD "")
  let foodItem := jsTrim (item.foodItem.getD "")
  if (chain = "" ∨ foodItem = "") ∧ 2 ≤ (item.name.splitOn " - ").length then
    match item.name.splitOn " - " with
    | [] => (chain, foodItem)
    | chainPart :: rest =>
      ((if chain = "" then jsTrim chainPart else chain),
        (if foodItem = "" then jsTrim (String.intercalate " - " rest)
          else foodItem))
  else (chain, foodItem)

/-- One iteration of the `upsertEatingOutCatalogFromSession` loop
(`Dashboard.tsx`, run once per line item when a session is saved): skip
non-eating-out items and items without a resolvable chain/item; re-put an
existing entry with its own stored values; otherwise insert a new entry
derived through `deriveBaseMacros`. -/
def processSessionItem (cat : List FoodCatalogRecord) (item : MealLineItem)
    (now : ℤ) (freshId : String) : List FoodCatalogRecord :=
  match mapMealSourceToCatalogType item.source with
  | none => cat
  | some sourceType =>
    let chain := (resolvedChainItem item).1
    let foodItem := (resolvedChainItem item).2
    if chain = "" ∨ foodItem = "" then cat
    else
      match findRecordByKey cat (buildKey sourceType chain foodItem) with
      | some existing =>
        upsertFoodCatalogItem cat {
          id := some existing.id
          sourceType := existing.sourceType
          chain := existing.chain
          itemName := existing.itemName
          basisQty := existing.basisQty
          basisUnit := existing.basisUnit
          calories := existing.calories
          fatG := existing.fatG
          sodiumMg := existing.sodiumMg
          carbsG := existing.carbsG
          fiberG := existing.fiberG
          sugarG := existing.sugarG
          proteinG := existing.proteinG } now freshId
      | none =>
        let baseMacros := deriveBaseMacros item
        let basisQty := (parseQuantity (item.perQuantityRaw.getD "1")).getD 1
        let safeBasisQty := if 0 < basisQty then basisQty else 1
        let basisUnit := if item.perType.getD "" = "" then "order"
          else item.perType.getD ""
        upsertFoodCatalogItem cat {
          id := none
          sourceType := sourceType
          chain := chain
          itemName := foodItem
          basisQty := safeBasisQty
          basisUnit := basisUnit
          calories := baseMacros.calories
          fatG := baseMacros.fatG
          sodiumMg := baseMacros.sodiumMg
          carbsG := baseMacros.carbsG
          fiberG := baseMacros.fiberG
          sugarG := baseMacros.sugarG
          proteinG := baseMacros.proteinG } now freshId

/-- The optional save-to-catalog write at the end of `handleAddFood`
(Fast Food/Restaurant with the save option enabled, lines 622-642): writes
the form's own base macros and basis through `upsertFoodCatalogItem`.
`perQuantity` is the parsed per-quantity, already validated positive
upstream. -/
def addFoodCatalogWrite (cat : List FoodCatalogRecord)
    (catalogType : EatingOutSourceType) (form : FoodFormData)
    (perQuantity : ℚ) (now : ℤ) (freshId : String) :
    List FoodCatalogRecord :=
  upsertFoodCatalogItem cat {
    id := none
    sourceType := catalogType
    chain := jsTrim form.chain
    itemName := jsTrim form.foodItem
    basisQty := if 0 < perQuantity then perQuantity else 1
    basisUnit := if form.perQuantityUnit.getD "" = "" then "order"
      else form.perQuantityUnit.getD ""
    calories := form.baseMacros.calories
    fatG := form.baseMacros.fatG
    sodiumMg := form.baseMacros.sodiumMg
    carbsG := form.baseMacros.carbsG
    fiberG := form.baseMacros.fiberG
    sugarG := form.baseMacros.sugarG
    proteinG := form.baseMacros.proteinG } now freshId

deriving instance DecidableEq for Except

/-! ## Concrete instances used by closed counterexamples and witnesses -/

/-- A base profile with 0.0033 calories, off the 2-decimal grid. -/
def offGridBase : MacroTotals :=
  { calories := 33 / 10000, fatG := 0, sodiumMg := 0, carbsG := 0,
    fiberG := 0, sugarG := 0, proteinG := 0 }

/-- The scaled profile `deriveScaled` produces from `offGridBase` at
multiplier 3: one cent of a calorie. -/
def offGridScaled : MacroTotals :=
  { calories := 1 / 100, fatG := 0, sodiumMg := 0, carbsG := 0,
    fiberG := 0, sugarG := 0, proteinG := 0 }

/-- The line item the add flow stores for `offGridScaled` (fast food,
count unit, quantity 3, per-quantity "1"). -/
def offGridItem : MealLineItem :=
  { name := "A - B", source := .fastFood, chain := some "A",
    foodItem := some "B", quantity := 3, macros := offGridScaled,
    perQuantityRaw := some "1", perType := some "burger" }

/-- A Home Meal form: 52 calories per 100 g, amount having 2.5. -/
def appleForm : FoodFormData :=
  { name := "Apple", chain := "", foodItem := "",
    servingSizeAmount := some 100, perQuantityRaw := "100", perUnit := "g",
    perQuantityUnit := none,
    baseMacros :=
      { calories := 52, fatG := 0, sodiumMg := 0, carbsG := 0,
        fiberG := 0, sugarG := 0, proteinG := 0 },
    amountHaving := some (5 / 2) }

/-- The line item `handleAddFood` produces from `appleForm`. -/
def appleItem : MealLineItem :=
  { name := "Apple", source := .homeMeal, chain := none, foodItem := none,
    quantity := 5 / 2,
    macros :=
      { calories := 13 / 10, fatG := 0, sodiumMg := 0, carbsG := 0,
        fiberG := 0, sugarG := 0, proteinG := 0 },
    perQuantityRaw := some "100", perType := some "g" }

/-- A fast-food form: nuggets, 250 calories and 14 g carbs per 1 order,
amount having 2. -/
def cfaForm : FoodFormData :=
  { name := "", chain := "Chick-fil-A", foodItem := "Nuggets",
    servingSizeAmount := none, perQuantityRaw := "1", perUnit := "serving",
    perQuantityUnit := some "order",
    baseMacros :=
      { calories := 250, fatG := 0, sodiumMg := 0, carbsG := 14,
        fiberG := 0, sugarG := 0, proteinG := 0 },
    amountHaving := some 2 }

/-- The line item `handleAddFood` produces from `cfaForm`. -/
def cfaItem : MealLineItem :=
  { name := "Chick-fil-A - Nuggets", source := .fastFood,
    chain := some "Chick-fil-A", foodItem := some "Nuggets", quantity := 2,
    macros :=
      { calories := 500, fatG := 0, sodiumMg := 0, carbsG := 28,
        fiberG := 0, sugarG := 0, proteinG := 0 },
    perQuantityRaw := some "1", perType := some "order" }

/-- A Home Meal item with the physical unit g, quantity 2, per-quantity 4. -/
def oatsItem : MealLineItem :=
  { name := "Oats", source := .homeMeal, chain := none, foodItem := none,
    quantity := 2,
    macros :=
      { calories := 10, fatG := 0, sodiumMg := 0, carbsG := 0,
        fiberG := 0, sugarG := 0, proteinG := 0 },
    perQuantityRaw := some "4", perType := some "g" }

/-- A profile whose seven fields are all the positive value 0.001. -/
def tinyBase : MacroTotals :=
  { calories := 1 / 1000, fatG := 1 / 1000, sodiumMg := 1 / 1000,
    carbsG := 1 / 1000, fiberG := 1 / 1000, sugarG := 1 / 1000,
    proteinG := 1 / 1000 }

/-- A fast-food count item: 1 serving of a third of an order, cached at the
rounded 0.33 calories. -/
def thirdItem : MealLineItem :=
  { name := "A - B", source := .fastFood, chain := some "A",
    foodItem := some "B", quantity := 1,
    macros :=
      { calories := 33 / 100, fatG := 0, sodiumMg := 0, carbsG := 0,
        fiberG := 0, sugarG := 0, proteinG := 0 },
    perQuantityRaw := some "3", perType := some "order" }

/-- A fast-food form for the nuggets key with freshly typed macros (999
calories) that differ from the stored catalog entry. -/
def overwriteForm : FoodFormData :=
  { name := "", chain := "Chick-fil-A", foodItem := "Nuggets",
    servingSizeAmount := none, perQuantityRaw := "1", perUnit := "serving",
    perQuantityUnit := some "order",
    baseMacros :=
      { calories := 999, fatG := 1, sodiumMg := 2, carbsG := 3,
        fiberG := 4, sugarG := 5, proteinG := 6 },
    amountHaving := some 2 }

/-- A base profile with exactly one calorie. -/
def unitBase : MacroTotals :=
  { calories := 1, fatG := 0, sodiumMg := 0, carbsG := 0, fiberG := 0,
    sugarG := 0, proteinG := 0 }

/-- The result of editing `cfaItem` to quantity 3 (ratio 1.5). -/
def cfaEdited : MealLineItem :=
  { name := "Chick-fil-A - Nuggets", source := .fastFood,
    chain := some "Chick-fil-A", foodItem := some "Nuggets", quantity := 3,
    macros :=
      { calories := 750, fatG := 0, sodiumMg := 0, carbsG := 42,
        fiberG := 0, sugarG := 0, proteinG := 0 },
    perQuantityRaw := some "1", perType := some "order" }

/-- A stored catalog record for the nuggets key. -/
def nugRecord : FoodCatalogRecord :=
  { id := "catalog-1", sourceType := .fastFoodType, chain := "Chick-fil-A",
    itemName := "Nuggets", basisQty := 1, basisUnit := "order",
    calories := 250, fatG := 0, sodiumMg := 0, carbsG := 14, fiberG := 0,
    sugarG := 0, proteinG := 0, createdAt := 5, updatedAt := 5,
    key := "FAST_FOOD|chick-fil-a|nuggets",
    chainNormalized := "chick-fil-a", itemNormalized := "nuggets" }

/-! ## Numeric helper lemmas -/

/-- x lies on the 2-decimal grid (x·100 is an integer). -/
def OnCents (x : ℚ) : Prop := (x * 100).den = 1

instance (x : ℚ) : Decidable (OnCents x) :=
  inferInstanceAs (Decidable ((x * 100).den = 1))

/-- All seven fields lie on the 2-decimal grid. -/
def CentsProfile (m : MacroTotals) : Prop :=
  OnCents m.calories ∧ OnCents m.fatG ∧ OnCents m.sodiumMg ∧
    OnCents m.carbsG ∧ OnCents m.fiberG ∧ OnCents m.sugarG ∧
    OnCents m.proteinG

instance (m : MacroTotals) : Decidable (CentsProfile m) := by
  unfold CentsProfile
  infer_instance

/-- All seven fields are positive. -/
def PositiveProfile (m : MacroTotals) : Prop :=
  0 < m.calories ∧ 0 < m.fatG ∧ 0 < m.sodiumMg ∧ 0 < m.carbsG ∧
    0 < m.fiberG ∧ 0 < m.sugarG ∧ 0 < m.proteinG

instance (m : MacroTotals) : Decidable (PositiveProfile m) := by
  unfold PositiveProfile
  infer_instance

/-- The exact (unrounded) field-wise product, used to state when forward
scaling incurs no rounding at all. -/
def exactScaled (base : MacroTotals) (multiplier : ℚ) : MacroTotals where
  calories := base.calories * multiplier
  fatG := base.fatG * multiplier
  sodiumMg := base.sodiumMg * multiplier
  carbsG := base.carbsG * multiplier
  fiberG := base.fiberG * multiplier
  sugarG := base.sugarG * multiplier
  proteinG := base.proteinG * multiplier

/-- Modelled from the amended C4 claim: the divisor of the inverse
derivation.  The physical-unit rule (divisor = quantity, floored to 1)
applies only to eating-out items with a physical `perType`; every other
item uses the count-unit rule with the per-quantity defaulted to 1 on
parse failure, and the divisor is always positive. -/
def claimedInverseDivisor (item : MealLineItem) : ℚ :=
  if isFastFoodOrRestaurant item.source && isPhysicalBasisUnit item.perType then
    if 0 < item.quantity then item.quantity else 1
  else
    let perQty := (parseQuantity (item.perQuantityRaw.getD "1")).getD 1
    let multiplier := if 0 < perQty then item.quantity / perQty else 1
    if 0 < multiplier then multiplier else 1

theorem jsRound_intCast (n : ℤ) : jsRound (n : ℚ) = n := by
  unfold jsRound
  rw [Int.floor_int_add]
  norm_num

theorem round2_eq_self (x : ℚ) (h : OnCents x) : round2 x = x := by
  have hx : ((x * 100).num : ℚ) = x * 100 := (Rat.den_eq_one_iff _).mp h
  unfold round2
  rw [← hx, jsRound_intCast, hx]
  exact mul_div_cancel_right₀ x (by norm_num)

theorem round2_mono {x y : ℚ} (h : x ≤ y) : round2 x ≤ round2 y := by
  unfold round2 jsRound
  have hf : ⌊x * 100 + 1 / 2⌋ ≤ ⌊y * 100 + 1 / 2⌋ :=
    Int.floor_le_floor (by linarith)
  have hq : ((⌊x * 100 + 1 / 2⌋ : ℤ) : ℚ) ≤ ((⌊y * 100 + 1 / 2⌋ : ℤ) : ℚ) := by
    exact_mod_cast hf
  linarith

/-- The rounded round-trip of one field: scaling a grid value by a positive
multiplier whose product is again on the grid, dividing back and rescaling
reproduces the scaled value exactly. -/
theorem roundtrip_field (b m : ℚ) (hm : 0 < m) (hb : OnCents b)
    (hbm : OnCents (b * m)) :
    round2 (round2 (round2 (b * m) / m) * m) = round2 (b * m) := by
  rw [round2_eq_self (b * m) hbm, mul_div_cancel_right₀ b (ne_of_gt hm),
    round2_eq_self b hb, round2_eq_self (b * m) hbm]

/-- Inversion of a successful `handleAddFood`: the parsed per-quantity and
amount are positive and the stored item is the scaled record. -/
theorem handleAddFood_ok_spec (source : MealSource) (form : FoodFormData)
    (item : MealLineItem) (hok : handleAddFood source form = .ok item) :
    ∃ perQty amountHaving : ℚ,
      parseQuantity form.perQuantityRaw = some perQty ∧ 0 < perQty ∧
      form.amountHaving = some amountHaving ∧ 0 < amountHaving ∧
      item.quantity = amountHaving ∧
      item.source = source ∧
      item.perQuantityRaw = some form.perQuantityRaw ∧
      item.perType = some (if isFastFoodOrRestaurant source then
        form.perQuantityUnit.getD "order" else form.perUnit) ∧
      item.macros = deriveScaled source form.perQuantityUnit form.baseMacros
        amountHaving perQty := by
  unfold handleAddFood at hok
  split at hok
  · exact absurd hok (by simp)
  · split at hok
    · exact absurd hok (by simp)
    · rename_i perQty hparse
      split at hok
      · exact absurd hok (by simp)
      · rename_i hperQty
        split at hok
        · exact absurd hok (by simp)
        · rename_i amountHaving hamount
          split at hok
          · exact absurd hok (by simp)
          · rename_i hamountPos
            refine ⟨perQty, amountHaving, hparse, by linarith [lt_of_not_le hperQty], hamount,
              by linarith [lt_of_not_le hamountPos], ?_⟩
            cases hok
            simp

/-- `deriveBaseMacros` on an eating-out item with a physical unit and a
positive quantity divides by the quantity. -/
theorem deriveBaseMacros_physical (item : MealLineItem)
    (hcond : (isFastFoodOrRestaurant item.source &&
      isPhysicalBasisUnit item.perType) = true)
    (hq : 0 < item.quantity) :
    deriveBaseMacros item = dividedMacros item.macros item.quantity := by
  unfold deriveBaseMacros
  simp [hcond, hq]

/-- `deriveBaseMacros` on a count-branch item whose per-quantity parses to
a positive value divides by `quantity / perQty`. -/
theorem deriveBaseMacros_count (item : MealLineItem) (perQty : ℚ)
    (hcond : (isFastFoodOrRestaurant item.source &&
      isPhysicalBasisUnit item.perType) = false)
    (hparse : parseQuantity (item.perQuantityRaw.getD "1") = some perQty)
    (hpos : 0 < perQty) (hq : 0 < item.quantity) :
    deriveBaseMacros item =
      dividedMacros item.macros (item.quantity / perQty) := by
  unfold deriveBaseMacros
  simp [hcond, hparse, hpos, div_pos hq hpos]

/-- Scaling a grid-valued profile by a positive multiplier with a
grid-valued exact product, dividing back, and rescaling reproduces the
scaled profile. -/
theorem roundtrip_profile (base : MacroTotals) (m : ℚ) (hm : 0 < m)
    (hbase : CentsProfile base) (hexact : CentsProfile (exactScaled base m)) :
    calculatedMacros (dividedMacros (calculatedMacros base m) m) m =
      calculatedMacros base m := by
  unfold CentsProfile at hbase hexact
  obtain ⟨hb1, hb2, hb3, hb4, hb5, hb6, hb7⟩ := hbase
  obtain ⟨he1, he2, he3, he4, he5, he6, he7⟩ := hexact
  simp only [exactScaled] at he1 he2 he3 he4 he5 he6 he7
  unfold calculatedMacros dividedMacros
  ext
  · exact roundtrip_field _ m hm hb1 he1
  · exact roundtrip_field _ m hm hb2 he2
  · exact roundtrip_field _ m hm hb3 he3
  · exact roundtrip_field _ m hm hb4 he4
  · exact roundtrip_field _ m hm hb5 he5
  · exact roundtrip_field _ m hm hb6 he6
  · exact roundtrip_field _ m hm hb7 he7

/-- Updating every record matching an id keeps the replacement findable by
that id, provided some record matched. -/
theorem find_update_by_id (cat : List FoodCatalogRecord)
    (record : FoodCatalogRecord)
    (h : (cat.find? (fun r => r.id == record.id)).isSome = true) :
    (cat.map (fun r => if r.id == record.id then record else r)).find?
      (fun r => r.id == record.id) = some record := by
  induction cat with
  | nil => simp at h
  | cons head tail ih =>
    cases hh : head.id == record.id
    · have h2 : (tail.find? (fun r => r.id == record.id)).isSome = true := by
        rw [List.find?_cons_of_neg _ (by simp [hh])] at h
        exact h
      simp only [List.map_cons]
      rw [if_neg (by simp [hh])]
      rw [List.find?_cons_of_neg _ (by simp [hh])]
      exact ih h2
    · simp only [List.map_cons]
      rw [if_pos hh]
      rw [List.find?_cons_of_pos _ (by simp)]

/-- Replacing by id keeps the replaced record findable by that id. -/
theorem findRecordById_putById (cat : List FoodCatalogRecord)
    (record : FoodCatalogRecord)
    (h : (findRecordById cat record.id).isSome = true) :
    findRecordById (putById cat record) record.id = some record := by
  unfold findRecordById at h ⊢
  unfold putById
  have hany : cat.any (fun r => r.id == record.id) = true := by
    have h2 := h
    rw [List.find?_isSome] at h2
    simpa [List.any_eq_true] using h2
  rw [if_pos hany]
  exact find_update_by_id cat record h

/-- Putting a record whose id is fresh appends it. -/
theorem putById_append (cat : List FoodCatalogRecord)
    (record : FoodCatalogRecord) (h : ∀ r ∈ cat, r.id ≠ record.id) :
    putById cat record = cat ++ [record] := by
  unfold putById
  have hany : cat.any (fun r => r.id == record.id) = false := by
    rw [List.any_eq_false]
    intro r hr
    simpa using h r hr
  rw [if_neg (by simp [hany])]

/-! ## Claim theorems -/

/-- C1 counterexample: the scaled profile M = deriveScaled(0.0033 calories,
count basis, quantity 3, per-quantity "1") is 0.01 calories; applying the
inverse derivation and scaling forward again with the very same parameters
yields 0, not M. -/
theorem roundtrip_claim_counterexample :
    deriveScaled .fastFood (some "burger") offGridBase 3 1 = offGridScaled ∧
    parseQuantity "1" = some 1 ∧ (0 : ℚ) < 1 ∧ (0 : ℚ) < 3 ∧
    offGridItem.macros = offGridScaled ∧
    deriveScaled .fastFood (some "burger") (deriveBaseMacros offGridItem)
      3 1 ≠ offGridScaled :=
  ⟨by decide, by decide, by decide, by decide, by decide, by decide⟩

/-- C1 (amended): the round trip forward-inverse-forward is exact whenever
the base profile and its exact scaled values lie on the 2-decimal grid, so
that the forward derivation incurs no rounding: for any line item stored
by the add flow from such a base with basis parameters q > 0 and a
per-quantity string parsing to a positive value, inverse derivation
followed by forward scaling with the same parameters reproduces the scaled
profile exactly.  Off the grid the recovery can differ (see the
counterexample). -/
theorem roundtrip_on_cent_grid (source : MealSource)
    (perQuantityUnit : Option String) (perUnit name : String)
    (chain foodItem : Option String) (base : MacroTotals) (q perQty : ℚ)
    (pqr : String)
    (hpq : parseQuantity pqr = some perQty) (hperQty : 0 < perQty)
    (hq : 0 < q) (hbase : CentsProfile base)
    (hexact : CentsProfile (exactScaled base
      (jsMultiplier source perQuantityUnit q perQty))) :
    deriveScaled source perQuantityUnit
      (deriveBaseMacros
        { name := name, source := source, chain := chain,
          foodItem := foodItem, quantity := q,
          macros := deriveScaled source perQuantityUnit base q perQty,
          perQuantityRaw := some pqr,
          perType := some (if isFastFoodOrRestaurant source then
            perQuantityUnit.getD "order" else perUnit) }) q perQty =
      deriveScaled source perQuantityUnit base q perQty := by
  cases hdisp : (isFastFoodOrRestaurant source &&
      isPhysicalBasisUnit perQuantityUnit)
  case true =>
    have hpair := hdisp
    rw [Bool.and_eq_true] at hpair
    have hsrc : isFastFoodOrRestaurant source = true := hpair.1
    have hphys : isPhysicalBasisUnit perQuantityUnit = true := hpair.2
    have hmq : jsMultiplier source perQuantityUnit q perQty = q := by
      unfold jsMultiplier
      simp [hdisp]
    have hpt : isPhysicalBasisUnit
        (some (perQuantityUnit.getD "order")) = true := by
      cases perQuantityUnit with
      | none => exact absurd hphys (by decide)
      | some u => simpa using hphys
    rw [hmq] at hexact
    have hinv := deriveBaseMacros_physical
      { name := name, source := source, chain := chain,
        foodItem := foodItem, quantity := q,
        macros := deriveScaled source perQuantityUnit base q perQty,
        perQuantityRaw := some pqr,
        perType := some (if isFastFoodOrRestaurant source then
          perQuantityUnit.getD "order" else perUnit) }
      (by simp [hsrc, hpt]) hq
    rw [hinv]
    unfold deriveScaled
    rw [hmq]
    exact roundtrip_profile base q hq hbase hexact
  case false =>
    have hmv : jsMultiplier source perQuantityUnit q perQty = q / perQty := by
      unfold jsMultiplier
      simp [hdisp]
    have hdivPos : 0 < q / perQty := div_pos hq hperQty
    have hptF : (isFastFoodOrRestaurant source &&
        isPhysicalBasisUnit (some (if isFastFoodOrRestaurant source then
          perQuantityUnit.getD "order" else perUnit))) = false := by
      cases hsrc2 : isFastFoodOrRestaurant source with
      | false => simp
      | true =>
        have hphysF : isPhysicalBasisUnit perQuantityUnit = false := by
          cases hb : isPhysicalBasisUnit perQuantityUnit
          · rfl
          · rw [hsrc2, hb] at hdisp
            cases hdisp
        simp only [hsrc2, if_true, Bool.true_and]
        cases perQuantityUnit with
        | none => decide
        | some u => simpa using hphysF
    rw [hmv] at hexact
    have hinv := deriveBaseMacros_count
      { name := name, source := source, chain := chain,
        foodItem := foodItem, quantity := q,
        macros := deriveScaled source perQuantityUnit base q perQty,
        perQuantityRaw := some pqr,
        perType := some (if isFastFoodOrRestaurant source then
          perQuantityUnit.getD "order" else perUnit) }
      perQty (by simpa using hptF) (by simpa using hpq) hperQty hq
    rw [hinv]
    unfold deriveScaled
    rw [hmv]
    exact roundtrip_profile base (q / perQty) hdivPos hbase hexact

/-- C1 witness: the spec's own worked example (150/5/200/20/3/5/8 per
1 burger, quantity 2, per-quantity "1") round-trips exactly. -/
theorem roundtrip_on_cent_grid_witness :
    parseQuantity "1" = some 1 ∧ (0 : ℚ) < 1 ∧ (0 : ℚ) < 2 ∧
    CentsProfile
      { calories := 150, fatG := 5, sodiumMg := 200, carbsG := 20,
        fiberG := 3, sugarG := 5, proteinG := 8 } ∧
    CentsProfile (exactScaled
      { calories := 150, fatG := 5, sodiumMg := 200, carbsG := 20,
        fiberG := 3, sugarG := 5, proteinG := 8 }
      (jsMultiplier .fastFood (some "burger") 2 1)) ∧
    deriveScaled .fastFood (some "burger")
      (deriveBaseMacros
        { name := "A - B", source := .fastFood, chain := some "A",
          foodItem := some "B", quantity := 2,
          macros := deriveScaled .fastFood (some "burger")
            { calories := 150, fatG := 5, sodiumMg := 200, carbsG := 20,
              fiberG := 3, sugarG := 5, proteinG := 8 } 2 1,
          perQuantityRaw := some "1",
          perType := some (if isFastFoodOrRestaurant .fastFood then
            (some "burger" : Option String).getD "order" else "serving") })
      2 1 =
      deriveScaled .fastFood (some "burger")
        { calories := 150, fatG := 5, sodiumMg := 200, carbsG := 20,
          fiberG := 3, sugarG := 5, proteinG := 8 } 2 1 :=
  ⟨by decide, by decide, by decide, by decide, by decide,
    roundtrip_on_cent_grid .fastFood (some "burger") "serving" "A - B"
      (some "A") (some "B")
      { calories := 150, fatG := 5, sodiumMg := 200, carbsG := 20,
        fiberG := 3, sugarG := 5, proteinG := 8 } 2 1 "1"
      (by decide) (by decide) (by decide) (by decide) (by decide)⟩

/-- C5: `parseQuantity` fails on empty/whitespace input, evaluates simple
fractions (`"2/3"` is 0.6667 to four decimals) and mixed numbers, fails on
a zero denominator in either form, fails on unparseable text, and accepts
negative and zero decimals.  All failures are the code's single `null`
(modelled `none`). -/
theorem parseQuantity_contract (s : String) (h : jsTrim s = "") :
    parseQuantity s = none ∧
    (∃ q, parseQuantity "2/3" = some q ∧ jsRound (q * 10000) = 6667) ∧
    parseQuantity "2 1/3" = some (7 / 3) ∧
    parseQuantity "1/0" = none ∧
    parseQuantity "2 1/0" = none ∧
    parseQuantity "abc" = none ∧
    parseQuantity "-2.5" = some (-(5 / 2)) ∧
    parseQuantity "0" = some 0 := by
  refine ⟨?_, ⟨2 / 3, by decide, by decide⟩, by decide, by decide, by decide,
    by decide, by decide, by decide⟩
  unfold parseQuantity
  rw [h]
  simp

/-- C5 witness: the empty string trims to the empty string and fails. -/
theorem parseQuantity_contract_witness :
    jsTrim "" = "" ∧ parseQuantity "" = none :=
  ⟨by decide, (parseQuantity_contract "" (by decide)).1⟩

/-- C10: the decimal branch accepts everything the host numeric conversion
accepts: hexadecimal and exponent notation parse to numbers outside the
decimal/fraction/mixed grammar, while the non-finite spellings
`Infinity`/`-Infinity` fall through every branch and fail. -/
theorem decimal_branch_host_numeric :
    parseQuantity "0x10" = some 16 ∧
    parseQuantity "1e2" = some 100 ∧
    parseQuantity "1E-2" = some (1 / 100) ∧
    parseQuantity "0b101" = some 5 ∧
    parseQuantity "Infinity" = none ∧
    parseQuantity "-Infinity" = none :=
  ⟨by decide, by decide, by decide, by decide, by decide, by decide⟩

/-- C2 counterexample: a Home Meal entry whose basis unit is the physical
unit `g` is still scaled with the `amountHaving / perQuantity` multiplier:
52 calories per 100 g with amount having 2.5 yields 1.3 calories, not the
claimed `round2 (52 * 2.5) = 130`. -/
theorem physical_unit_claim_counterexample :
    isPhysicalBasisUnit (some "g") = true ∧
    handleAddFood .homeMeal appleForm = .ok appleItem ∧
    appleItem.perType = some "g" ∧
    appleItem.macros.calories = 13 / 10 ∧
    (13 / 10 : ℚ) ≠ round2 (52 * (5 / 2)) :=
  ⟨by decide, by decide, by decide, by decide, by decide⟩

/-- C2 (amended): for an eating-out source with a physical per-quantity
unit, the multiplier is the amount having itself — not divided by the
per-quantity value — and every output field is
`round2 (base.field * amountHaving)`, independent of the per-quantity. -/
theorem physical_unit_multiplier (source : MealSource)
    (perQuantityUnit : Option String) (base : MacroTotals)
    (amountHaving perQuantity : ℚ)
    (hsrc : isFastFoodOrRestaurant source = true)
    (hphys : isPhysicalBasisUnit perQuantityUnit = true) :
    deriveScaled source perQuantityUnit base amountHaving perQuantity =
      { calories := round2 (base.calories * amountHaving)
        fatG := round2 (base.fatG * amountHaving)
        sodiumMg := round2 (base.sodiumMg * amountHaving)
        carbsG := round2 (base.carbsG * amountHaving)
        fiberG := round2 (base.fiberG * amountHaving)
        sugarG := round2 (base.sugarG * amountHaving)
        proteinG := round2 (base.proteinG * amountHaving) } := by
  unfold deriveScaled jsMultiplier calculatedMacros
  rw [hsrc, hphys]
  simp

/-- C2 witness: 52 calories per 100 g at 2.5 servings of a fast-food item
scale by 2.5. -/
theorem physical_unit_multiplier_witness :
    isFastFoodOrRestaurant .fastFood = true ∧
    isPhysicalBasisUnit (some "g") = true ∧
    deriveScaled .fastFood (some "g") appleForm.baseMacros (5 / 2) 100 =
      { calories := round2 (appleForm.baseMacros.calories * (5 / 2))
        fatG := round2 (appleForm.baseMacros.fatG * (5 / 2))
        sodiumMg := round2 (appleForm.baseMacros.sodiumMg * (5 / 2))
        carbsG := round2 (appleForm.baseMacros.carbsG * (5 / 2))
        fiberG := round2 (appleForm.baseMacros.fiberG * (5 / 2))
        sugarG := round2 (appleForm.baseMacros.sugarG * (5 / 2))
        proteinG := round2 (appleForm.baseMacros.proteinG * (5 / 2)) } :=
  ⟨by decide, by decide,
    physical_unit_multiplier .fastFood (some "g") appleForm.baseMacros
      (5 / 2) 100 (by decide) (by decide)⟩

/-- C3: when the basis unit is a count unit, a successful add has parsed a
positive per-quantity (a non-positive or unparseable one is rejected with
an inline error), the amount having is positive, and every output field is
`round2 (base.field * (quantityHaving / perQty))`, rounded at the
multiplication step. -/
theorem count_unit_multiplier (source : MealSource) (form : FoodFormData)
    (item : MealLineItem)
    (hok : handleAddFood source form = .ok item)
    (hcount : isPhysicalBasisUnit
      (if isFastFoodOrRestaurant source then form.perQuantityUnit
        else some form.perUnit) = false) :
    ∃ perQty : ℚ, parseQuantity form.perQuantityRaw = some perQty ∧
      0 < perQty ∧ 0 < item.quantity ∧
      item.macros =
        { calories := round2 (form.baseMacros.calories * (item.quantity / perQty))
          fatG := round2 (form.baseMacros.fatG * (item.quantity / perQty))
          sodiumMg := round2 (form.baseMacros.sodiumMg * (item.quantity / perQty))
          carbsG := round2 (form.baseMacros.carbsG * (item.quantity / perQty))
          fiberG := round2 (form.baseMacros.fiberG * (item.quantity / perQty))
          sugarG := round2 (form.baseMacros.sugarG * (item.quantity / perQty))
          proteinG := round2 (form.baseMacros.proteinG * (item.quantity / perQty)) } := by
  obtain ⟨perQty, amountHaving, hparse, hpos, hform, hapos, hq, hsrcEq, hraw,
    hpt, hmac⟩ := handleAddFood_ok_spec source form item hok
  have hdisp : (isFastFoodOrRestaurant source &&
      isPhysicalBasisUnit form.perQuantityUnit) = false := by
    cases hsrc2 : isFastFoodOrRestaurant source
    · simp
    · rw [hsrc2] at hcount
      simpa using hcount
  refine ⟨perQty, hparse, hpos, by rw [hq]; exact hapos, ?_⟩
  rw [hmac, hq]
  unfold deriveScaled jsMultiplier calculatedMacros
  rw [hdisp]
  simp

/-- C3 witness: two orders of 250-calorie nuggets per 1 order scale to 500
calories. -/
theorem count_unit_multiplier_witness :
    handleAddFood .fastFood cfaForm = .ok cfaItem ∧
    isPhysicalBasisUnit
      (if isFastFoodOrRestaurant .fastFood then cfaForm.perQuantityUnit
        else some cfaForm.perUnit) = false ∧
    (∃ perQty : ℚ, parseQuantity cfaForm.perQuantityRaw = some perQty ∧
      0 < perQty ∧ 0 < cfaItem.quantity ∧
      cfaItem.macros =
        { calories := round2 (cfaForm.baseMacros.calories * (cfaItem.quantity / perQty))
          fatG := round2 (cfaForm.baseMacros.fatG * (cfaItem.quantity / perQty))
          sodiumMg := round2 (cfaForm.baseMacros.sodiumMg * (cfaItem.quantity / perQty))
          carbsG := round2 (cfaForm.baseMacros.carbsG * (cfaItem.quantity / perQty))
          fiberG := round2 (cfaForm.baseMacros.fiberG * (cfaItem.quantity / perQty))
          sugarG := round2 (cfaForm.baseMacros.sugarG * (cfaItem.quantity / perQty))
          proteinG := round2 (cfaForm.baseMacros.proteinG * (cfaItem.quantity / perQty)) }) :=
  ⟨by decide, by decide,
    count_unit_multiplier .fastFood cfaForm cfaItem (by decide) (by decide)⟩

/-- C4 counterexample: `deriveBaseMacros` takes the count branch for a Home
Meal item with the physical unit `g`: with quantity 2 and per-quantity "4"
the divisor is 0.5 and the output is 20, while the claimed physical-unit
rule `round2 (10 / 2)` gives 5. -/
theorem inverse_physical_claim_counterexample :
    isPhysicalBasisUnit oatsItem.perType = true ∧
    (deriveBaseMacros oatsItem).calories = 20 ∧
    (20 : ℚ) ≠ round2 (oatsItem.macros.calories / oatsItem.quantity) :=
  ⟨by decide, by decide, by decide⟩

/-- C4 (amended): inverse derivation is total and never divides by zero —
the divisor is always positive and every output field is
`round2 (scaled.field / divisor)`; the physical-unit divisor rule applies
only to eating-out items, all other items (including physical-unit items
from other sources) use the count-unit rule with per-quantity defaulted to
1 on parse failure. -/
theorem inverse_derivation_total (item : MealLineItem) :
    0 < claimedInverseDivisor item ∧
    deriveBaseMacros item =
      dividedMacros item.macros (claimedInverseDivisor item) := by
  have hposFloor : ∀ x : ℚ, 0 < if 0 < x then x else 1 := by
    intro x
    split
    · assumption
    · norm_num
  constructor
  · unfold claimedInverseDivisor
    split
    · exact hposFloor _
    · exact hposFloor _
  · unfold deriveBaseMacros claimedInverseDivisor
    cases hc : (isFastFoodOrRestaurant item.source &&
        isPhysicalBasisUnit item.perType)
    · simp [hc]
    · simp [hc]

/-- C7 counterexample: with every base field the positive value 0.001, a
fast-food item with physical unit `g` rounds to 0 calories at one serving
and at two servings alike, so the scaled output is not strictly
increasing in the quantity having. -/
theorem strict_monotonicity_counterexample :
    PositiveProfile tinyBase ∧
    isFastFoodOrRestaurant .fastFood = true ∧
    isPhysicalBasisUnit (some "g") = true ∧
    (0 : ℚ) < 1 ∧ (1 : ℚ) < 2 ∧
    ¬ ((deriveScaled .fastFood (some "g") tinyBase 1 1).calories <
        (deriveScaled .fastFood (some "g") tinyBase 2 1).calories) :=
  ⟨by decide, by decide, by decide, by decide, by decide, by decide⟩

/-- C7 (amended): for a positive base profile and an eating-out source with
a physical basis unit, every field of the scaled output is monotonically
non-decreasing in the quantity having (strictness can be lost to the
2-decimal rounding). -/
theorem deriveScaled_monotone (source : MealSource)
    (perQuantityUnit : Option String) (base : MacroTotals)
    (q1 q2 perQty : ℚ)
    (hsrc : isFastFoodOrRestaurant source = true)
    (hphys : isPhysicalBasisUnit perQuantityUnit = true)
    (hbase : PositiveProfile base) (_hq1 : 0 < q1) (h12 : q1 ≤ q2) :
    (deriveScaled source perQuantityUnit base q1 perQty).calories ≤
      (deriveScaled source perQuantityUnit base q2 perQty).calories ∧
    (deriveScaled source perQuantityUnit base q1 perQty).fatG ≤
      (deriveScaled source perQuantityUnit base q2 perQty).fatG ∧
    (deriveScaled source perQuantityUnit base q1 perQty).sodiumMg ≤
      (deriveScaled source perQuantityUnit base q2 perQty).sodiumMg ∧
    (deriveScaled source perQuantityUnit base q1 perQty).carbsG ≤
      (deriveScaled source perQuantityUnit base q2 perQty).carbsG ∧
    (deriveScaled source perQuantityUnit base q1 perQty).fiberG ≤
      (deriveScaled source perQuantityUnit base q2 perQty).fiberG ∧
    (deriveScaled source perQuantityUnit base q1 perQty).sugarG ≤
      (deriveScaled source perQuantityUnit base q2 perQty).sugarG ∧
    (deriveScaled source perQuantityUnit base q1 perQty).proteinG ≤
      (deriveScaled source perQuantityUnit base q2 perQty).proteinG := by
  obtain ⟨h1, h2, h3, h4, h5, h6, h7⟩ := hbase
  unfold deriveScaled jsMultiplier calculatedMacros
  rw [hsrc, hphys]
  simp only [Bool.and_self, if_true]
  exact ⟨round2_mono (mul_le_mul_of_nonneg_left h12 (le_of_lt h1)),
    round2_mono (mul_le_mul_of_nonneg_left h12 (le_of_lt h2)),
    round2_mono (mul_le_mul_of_nonneg_left h12 (le_of_lt h3)),
    round2_mono (mul_le_mul_of_nonneg_left h12 (le_of_lt h4)),
    round2_mono (mul_le_mul_of_nonneg_left h12 (le_of_lt h5)),
    round2_mono (mul_le_mul_of_nonneg_left h12 (le_of_lt h6)),
    round2_mono (mul_le_mul_of_nonneg_left h12 (le_of_lt h7))⟩

/-- C7 witness: the monotone bound at base 250/14 nuggets scaled from 1 to
2 servings of 100 g. -/
theorem deriveScaled_monotone_witness :
    isFastFoodOrRestaurant .fastFood = true ∧
    isPhysicalBasisUnit (some "g") = true ∧
    PositiveProfile tinyBase ∧ (0 : ℚ) < 1 ∧ (1 : ℚ) ≤ 2 ∧
    ((deriveScaled .fastFood (some "g") tinyBase 1 1).calories ≤
      (deriveScaled .fastFood (some "g") tinyBase 2 1).calories ∧
    (deriveScaled .fastFood (some "g") tinyBase 1 1).fatG ≤
      (deriveScaled .fastFood (some "g") tinyBase 2 1).fatG ∧
    (deriveScaled .fastFood (some "g") tinyBase 1 1).sodiumMg ≤
      (deriveScaled .fastFood (some "g") tinyBase 2 1).sodiumMg ∧
    (deriveScaled .fastFood (some "g") tinyBase 1 1).carbsG ≤
      (deriveScaled .fastFood (some "g") tinyBase 2 1).carbsG ∧
    (deriveScaled .fastFood (some "g") tinyBase 1 1).fiberG ≤
      (deriveScaled .fastFood (some "g") tinyBase 2 1).fiberG ∧
    (deriveScaled .fastFood (some "g") tinyBase 1 1).sugarG ≤
      (deriveScaled .fastFood (some "g") tinyBase 2 1).sugarG ∧
    (deriveScaled .fastFood (some "g") tinyBase 1 1).proteinG ≤
      (deriveScaled .fastFood (some "g") tinyBase 2 1).proteinG) :=
  ⟨by decide, by decide, by decide, by decide, by decide,
    deriveScaled_monotone .fastFood (some "g") tinyBase 1 2 1 (by decide)
      (by decide) (by decide) (by decide) (by decide)⟩


/-- C6: when a session is saved, a catalog-eligible line item whose key
already has a CatalogEntry leaves that entry's stored macros, basis and
creation time unchanged (existing entry wins); when no entry exists, a new
one is inserted whose macros come from the inverse derivation of the line
item. -/
theorem session_catalog_upsert (cat : List FoodCatalogRecord)
    (item : MealLineItem) (now : ℤ) (freshId : String)
    (sourceType : EatingOutSourceType) (ex : FoodCatalogRecord)
    (hst : mapMealSourceToCatalogType item.source = some sourceType)
    (hchain : (resolvedChainItem item).1 ≠ "")
    (hfood : (resolvedChainItem item).2 ≠ "") :
    (findRecordByKey cat (buildKey sourceType (resolvedChainItem item).1
        (resolvedChainItem item).2) = some ex →
      findRecordById cat ex.id = some ex →
      ∃ r, findRecordById (processSessionItem cat item now freshId) ex.id =
          some r ∧
        r.basisQty = ex.basisQty ∧ r.basisUnit = ex.basisUnit ∧
        r.calories = ex.calories ∧ r.fatG = ex.fatG ∧
        r.sodiumMg = ex.sodiumMg ∧ r.carbsG = ex.carbsG ∧
        r.fiberG = ex.fiberG ∧ r.sugarG = ex.sugarG ∧
        r.proteinG = ex.proteinG ∧ r.createdAt = ex.createdAt) ∧
    (findRecordByKey cat (buildKey sourceType (resolvedChainItem item).1
        (resolvedChainItem item).2) = none →
      (∀ r ∈ cat, r.id ≠ freshId) →
      ∃ n, processSessionItem cat item now freshId = cat ++ [n] ∧
        n.id = freshId ∧ n.sourceType = sourceType ∧
        n.chain = (resolvedChainItem item).1 ∧
        n.itemName = (resolvedChainItem item).2 ∧
        n.calories = (deriveBaseMacros item).calories ∧
        n.fatG = (deriveBaseMacros item).fatG ∧
        n.sodiumMg = (deriveBaseMacros item).sodiumMg ∧
        n.carbsG = (deriveBaseMacros item).carbsG ∧
        n.fiberG = (deriveBaseMacros item).fiberG ∧
        n.sugarG = (deriveBaseMacros item).sugarG ∧
        n.proteinG = (deriveBaseMacros item).proteinG ∧
        n.createdAt = now) := by
  constructor
  · intro hfind hbyid
    have hstep : processSessionItem cat item now freshId =
        putById cat
          { id := ex.id, sourceType := ex.sourceType, chain := ex.chain,
            itemName := ex.itemName, basisQty := ex.basisQty,
            basisUnit := ex.basisUnit, calories := ex.calories,
            fatG := ex.fatG, sodiumMg := ex.sodiumMg, carbsG := ex.carbsG,
            fiberG := ex.fiberG, sugarG := ex.sugarG,
            proteinG := ex.proteinG, createdAt := ex.createdAt,
            updatedAt := now,
            key := buildKey ex.sourceType ex.chain ex.itemName,
            chainNormalized := normalizeKey ex.chain,
            itemNormalized := normalizeKey ex.itemName } := by
      simp only [processSessionItem, hst]
      rw [if_neg (by simp [hchain, hfood])]
      rw [hfind]
      simp [upsertFoodCatalogItem, hbyid, Option.orElse]
    rw [hstep]
    refine ⟨_, findRecordById_putById cat _ (by simp [hbyid]), rfl, rfl,
      rfl, rfl, rfl, rfl, rfl, rfl, rfl, rfl⟩
  · intro hnone hfresh
    have hstep : processSessionItem cat item now freshId =
        putById cat
          { id := freshId, sourceType := sourceType,
            chain := (resolvedChainItem item).1,
            itemName := (resolvedChainItem item).2,
            basisQty := if 0 <
                (parseQuantity (item.perQuantityRaw.getD "1")).getD 1 then
              (parseQuantity (item.perQuantityRaw.getD "1")).getD 1 else 1,
            basisUnit := if item.perType.getD "" = "" then "order"
              else item.perType.getD "",
            calories := (deriveBaseMacros item).calories,
            fatG := (deriveBaseMacros item).fatG,
            sodiumMg := (deriveBaseMacros item).sodiumMg,
            carbsG := (deriveBaseMacros item).carbsG,
            fiberG := (deriveBaseMacros item).fiberG,
            sugarG := (deriveBaseMacros item).sugarG,
            proteinG := (deriveBaseMacros item).proteinG,
            createdAt := now, updatedAt := now,
            key := buildKey sourceType (resolvedChainItem item).1
              (resolvedChainItem item).2,
            chainNormalized := normalizeKey (resolvedChainItem item).1,
            itemNormalized := normalizeKey (resolvedChainItem item).2 } := by
      simp only [processSessionItem, hst]
      rw [if_neg (by simp [hchain, hfood])]
      rw [hnone]
      simp [upsertFoodCatalogItem, hnone, Option.orElse]
    rw [hstep]
    rw [putById_append cat _ (fun r hr => by simpa using hfresh r hr)]
    refine ⟨_, rfl, rfl, rfl, rfl, rfl, rfl, rfl, rfl, rfl, rfl, rfl, rfl,
      rfl⟩

/-- C6 witness: a saved fast-food nuggets item whose key is already in the
catalog leaves the stored record's macros and creation time unchanged. -/
theorem session_catalog_upsert_witness :
    mapMealSourceToCatalogType cfaItem.source = some .fastFoodType ∧
    (resolvedChainItem cfaItem).1 ≠ "" ∧
    (resolvedChainItem cfaItem).2 ≠ "" ∧
    ((findRecordByKey [nugRecord]
        (buildKey .fastFoodType (resolvedChainItem cfaItem).1
          (resolvedChainItem cfaItem).2) = some nugRecord →
      findRecordById [nugRecord] nugRecord.id = some nugRecord →
      ∃ r, findRecordById (processSessionItem [nugRecord] cfaItem 9 "fresh")
          nugRecord.id = some r ∧
        r.basisQty = nugRecord.basisQty ∧ r.basisUnit = nugRecord.basisUnit ∧
        r.calories = nugRecord.calories ∧ r.fatG = nugRecord.fatG ∧
        r.sodiumMg = nugRecord.sodiumMg ∧ r.carbsG = nugRecord.carbsG ∧
        r.fiberG = nugRecord.fiberG ∧ r.sugarG = nugRecord.sugarG ∧
        r.proteinG = nugRecord.proteinG ∧
        r.createdAt = nugRecord.createdAt) ∧
    (findRecordByKey [nugRecord]
        (buildKey .fastFoodType (resolvedChainItem cfaItem).1
          (resolvedChainItem cfaItem).2) = none →
      (∀ r ∈ [nugRecord], r.id ≠ "fresh") →
      ∃ n, processSessionItem [nugRecord] cfaItem 9 "fresh" =
          [nugRecord] ++ [n] ∧
        n.id = "fresh" ∧ n.sourceType = .fastFoodType ∧
        n.chain = (resolvedChainItem cfaItem).1 ∧
        n.itemName = (resolvedChainItem cfaItem).2 ∧
        n.calories = (deriveBaseMacros cfaItem).calories ∧
        n.fatG = (deriveBaseMacros cfaItem).fatG ∧
        n.sodiumMg = (deriveBaseMacros cfaItem).sodiumMg ∧
        n.carbsG = (deriveBaseMacros cfaItem).carbsG ∧
        n.fiberG = (deriveBaseMacros cfaItem).fiberG ∧
        n.sugarG = (deriveBaseMacros cfaItem).sugarG ∧
        n.proteinG = (deriveBaseMacros cfaItem).proteinG ∧
        n.createdAt = 9)) :=
  ⟨by decide, by decide, by decide,
    session_catalog_upsert [nugRecord] cfaItem 9 "fresh" .fastFoodType
      nugRecord (by decide) (by decide) (by decide)⟩

/-- C9: the save-to-catalog write of the add-food flow overwrites an
existing same-key entry's stored macros and basis with the newly entered
form values (last write wins on this path), keeping the entry's id and
creation time. -/
theorem addflow_catalog_overwrite (cat : List FoodCatalogRecord)
    (catalogType : EatingOutSourceType) (form : FoodFormData)
    (perQuantity : ℚ) (now : ℤ) (freshId : String)
    (ex : FoodCatalogRecord)
    (hfind : findRecordByKey cat (buildKey catalogType (jsTrim form.chain)
      (jsTrim form.foodItem)) = some ex)
    (hbyid : findRecordById cat ex.id = some ex) :
    ∃ r, findRecordById (addFoodCatalogWrite cat catalogType form
        perQuantity now freshId) ex.id = some r ∧
      r.id = ex.id ∧ r.createdAt = ex.createdAt ∧
      r.calories = form.baseMacros.calories ∧
      r.fatG = form.baseMacros.fatG ∧
      r.sodiumMg = form.baseMacros.sodiumMg ∧
      r.carbsG = form.baseMacros.carbsG ∧
      r.fiberG = form.baseMacros.fiberG ∧
      r.sugarG = form.baseMacros.sugarG ∧
      r.proteinG = form.baseMacros.proteinG ∧
      r.basisQty = (if 0 < perQuantity then perQuantity else 1) ∧
      r.basisUnit = (if form.perQuantityUnit.getD "" = "" then "order"
        else form.perQuantityUnit.getD "") := by
  have hstep : addFoodCatalogWrite cat catalogType form perQuantity now
      freshId =
      putById cat
        { id := ex.id, sourceType := catalogType,
          chain := jsTrim form.chain, itemName := jsTrim form.foodItem,
          basisQty := if 0 < perQuantity then perQuantity else 1,
          basisUnit := if form.perQuantityUnit.getD "" = "" then "order"
            else form.perQuantityUnit.getD "",
          calories := form.baseMacros.calories,
          fatG := form.baseMacros.fatG,
          sodiumMg := form.baseMacros.sodiumMg,
          carbsG := form.baseMacros.carbsG,
          fiberG := form.baseMacros.fiberG,
          sugarG := form.baseMacros.sugarG,
          proteinG := form.baseMacros.proteinG,
          createdAt := ex.createdAt, updatedAt := now,
          key := buildKey catalogType (jsTrim form.chain)
            (jsTrim form.foodItem),
          chainNormalized := normalizeKey (jsTrim form.chain),
          itemNormalized := normalizeKey (jsTrim form.foodItem) } := by
    unfold addFoodCatalogWrite upsertFoodCatalogItem
    simp [hfind, Option.orElse]
  rw [hstep]
  refine ⟨_, findRecordById_putById cat _ (by simp [hbyid]), rfl, rfl, rfl,
    rfl, rfl, rfl, rfl, rfl, rfl, rfl, rfl⟩

/-- C9 witness: an add-flow save over the existing nuggets entry replaces
its 250 stored calories with the form's 999. -/
theorem addflow_catalog_overwrite_witness :
    findRecordByKey [nugRecord]
      (buildKey .fastFoodType (jsTrim overwriteForm.chain)
        (jsTrim overwriteForm.foodItem)) = some nugRecord ∧
    findRecordById [nugRecord] nugRecord.id = some nugRecord ∧
    nugRecord.calories ≠ overwriteForm.baseMacros.calories ∧
    (∃ r, findRecordById (addFoodCatalogWrite [nugRecord] .fastFoodType
        overwriteForm 1 9 "fresh") nugRecord.id = some r ∧
      r.id = nugRecord.id ∧ r.createdAt = nugRecord.createdAt ∧
      r.calories = overwriteForm.baseMacros.calories ∧
      r.fatG = overwriteForm.baseMacros.fatG ∧
      r.sodiumMg = overwriteForm.baseMacros.sodiumMg ∧
      r.carbsG = overwriteForm.baseMacros.carbsG ∧
      r.fiberG = overwriteForm.baseMacros.fiberG ∧
      r.sugarG = overwriteForm.baseMacros.sugarG ∧
      r.proteinG = overwriteForm.baseMacros.proteinG ∧
      r.basisQty = (if (0 : ℚ) < 1 then 1 else 1) ∧
      r.basisUnit = (if overwriteForm.perQuantityUnit.getD "" = "" then
        "order" else overwriteForm.perQuantityUnit.getD "")) :=
  ⟨by decide, by decide, by decide,
    addflow_catalog_overwrite [nugRecord] .fastFoodType overwriteForm 1 9
      "fresh" nugRecord (by decide) (by decide)⟩


/-- C8 counterexample: a line item cached at the rounded 0.33 calories
(deriveScaled of 1 calorie per 3 orders at quantity 1) is edited to
quantity 3; the new cached macros are 0.99 calories — the ratio-rescaled
cached value — while deriveScaled at the new quantity gives 1, so the
cached value no longer equals deriveScaled at the time of the edit. -/
theorem cached_macros_claim_counterexample :
    thirdItem.macros = deriveScaled .fastFood (some "order") unitBase 1 3 ∧
    (handleEditSave thirdItem (some 3)).map (fun e => e.macros.calories) =
      some (99 / 100) ∧
    (deriveScaled .fastFood (some "order") unitBase 3 3).calories = 1 ∧
    (99 / 100 : ℚ) ≠ 1 :=
  ⟨by decide, by decide, by decide, by decide⟩

/-- C8 (amended): at creation the cached macros equal `deriveScaled` of
the form's base at the item's quantity; an edit stores the previously
cached macros rescaled by `newQuantity / quantity` (which can differ from
`deriveScaled` recomputed from the base — see the counterexample) and
requires a positive new quantity; reads (the totals fold) use the cached
field as stored. -/
theorem cached_scaled_macros (source : MealSource) (form : FoodFormData)
    (item edited : MealLineItem) (newQuantity : Option ℚ)
    (hok : handleAddFood source form = .ok item)
    (hedit : handleEditSave item newQuantity = some edited) :
    (∃ perQty, parseQuantity form.perQuantityRaw = some perQty ∧
      item.macros = deriveScaled source form.perQuantityUnit
        form.baseMacros item.quantity perQty) ∧
    (∃ q, newQuantity = some q ∧ 0 < q ∧ edited.quantity = q ∧
      edited.macros = calculatedMacros item.macros (q / item.quantity)) ∧
    totals [item] = addMacros zeroMacros item.macros := by
  obtain ⟨perQty, amountHaving, hparse, hpos, hform, hapos, hq, hsrcEq,
    hraw, hpt, hmac⟩ := handleAddFood_ok_spec source form item hok
  refine ⟨⟨perQty, hparse, by rw [hmac, hq]⟩, ?_, rfl⟩
  unfold handleEditSave at hedit
  cases newQuantity with
  | none => simp at hedit
  | some q =>
    dsimp only at hedit
    split at hedit
    · simp at hedit
    · rename_i hqle
      injection hedit with heq
      subst heq
      exact ⟨q, rfl, lt_of_not_le hqle, rfl, rfl⟩

/-- C8 witness: the nuggets item is cached as deriveScaled at creation and
an edit to quantity 3 rescales the cached 500 calories to 750. -/
theorem cached_scaled_macros_witness :
    handleAddFood .fastFood cfaForm = .ok cfaItem ∧
    handleEditSave cfaItem (some 3) = some cfaEdited ∧
    ((∃ perQty, parseQuantity cfaForm.perQuantityRaw = some perQty ∧
      cfaItem.macros = deriveScaled .fastFood cfaForm.perQuantityUnit
        cfaForm.baseMacros cfaItem.quantity perQty) ∧
    (∃ q, (some (3 : ℚ)) = some q ∧ 0 < q ∧ cfaEdited.quantity = q ∧
      cfaEdited.macros = calculatedMacros cfaItem.macros
        (q / cfaItem.quantity)) ∧
    totals [cfaItem] = addMacros zeroMacros cfaItem.macros) :=
  ⟨by decide, by decide,
    cached_scaled_macros .fastFood cfaForm cfaItem cfaEdited (some 3)
      (by decide) (by decide)⟩

end CarbCalc
